import Mathlib

/-!
Verification development for the Quality Assurance Assistant front end.

The conversation orchestration core (`handleSendMessage` in `ChatInterface`),
the upload batch coordinator (`onDrop` / `removeFile` in `FileUpload`), the
request builder (`chatAPI.sendMessage`) and the chart export handler
(`ChartDisplay`) are embedded shallowly.  JavaScript strings are modelled as
`List Char` so that every operation evaluates inside the kernel; fallible
network calls are modelled as oracle functions returning `Option`.
-/

/-- Strings of the modelled program, represented as lists of characters. -/
abbrev Str := List Char

/-- Whitespace characters removed by the JavaScript `String.prototype.trim`. -/
def isWsChar (c : Char) : Bool :=
  c = ' ' || c = '\t' || c = '\n' || c = '\r' || c = '\x0b' || c = '\x0c'

/-- Model of JavaScript `s.trim()`: drop whitespace from both ends. -/
def jsTrim (s : Str) : Str :=
  ((s.dropWhile isWsChar).reverse.dropWhile isWsChar).reverse

/-- Model of JavaScript `s.includes(sub)`: substring containment. -/
def hasSubstr : Str → Str → Bool
  | [], sub => sub.isEmpty
  | c :: rest, sub => List.isPrefixOf sub (c :: rest) || hasSubstr rest sub

/-- The left-brace character, used by the JSON serializer. -/
def lbraceChar : Char := Char.ofNat 123

/-- The right-brace character, used by the JSON serializer. -/
def rbraceChar : Char := Char.ofNat 125

/-- Message roles of the chat transcript (`ChatMessage.role` in `api.ts`). -/
inductive Role where
  | user
  | assistant
deriving DecidableEq

/-- Restricted JSON scalar values carried in tabular upload rows: the CSV
backend returns rows as records of numbers and strings. -/
inductive JVal where
  | num (n : Nat)
  | str (s : Str)
deriving DecidableEq

/-- One tabular row: a record of named JSON scalar values. -/
abbrev Row := List (Str × JVal)

/-- `ChatMessage` from `src/services/api.ts`: role, content, timestamp and the
optional chart payload fields attached to assistant messages. -/
structure ChatMessage where
  role : Role
  content : Str
  timestamp : Nat
  chartData : Option Str := none
  toolType : Option Str := none
  statistics : Option (List (Str × JVal)) := none
  chartMetadata : Option (List (Str × JVal)) := none
deriving DecidableEq

/-- The `tool_result` object of a backend chat response; every field may be
absent because the payload is untyped in the source. -/
structure ToolResult where
  chart_data : Option Str := none
  data_summary : Option (List (Str × JVal)) := none
  chart_metadata : Option (List (Str × JVal)) := none
deriving DecidableEq

/-- `ChatResponse` from `src/services/api.ts`. -/
structure ChatResponse where
  type : Str
  message : Str
  tool_result : Option ToolResult := none
  tool_type : Option Str := none
deriving DecidableEq

/-- A raw dropped file: name, size and declared media type. -/
structure RawFile where
  name : Str
  size : Nat
  type : Str
deriving DecidableEq

/-- The per-file upload response assembled in `FileUpload.onDrop`: PDF uploads
carry extracted text, CSV uploads carry rows and column names, and the
`metadata.type` marker records which path was taken. -/
structure UploadResponse where
  text : Option Str := none
  data : Option (List Row) := none
  columns : Option (List Str) := none
  metadataType : Str
deriving DecidableEq

/-- An entry of the uploaded-file list built by `FileUpload.onDrop`. -/
structure UploadedFile where
  id : Str
  file : RawFile
  name : Str
  size : Nat
  type : Str
  uploadResponse : UploadResponse
deriving DecidableEq

/-- The PDF media type checked by the classifier. -/
def pdfMime : Str := "application/pdf".toList

/-- The CSV media type checked by the classifier. -/
def csvMime : Str := "text/csv".toList

/-- The substring the classifier looks for to detect Excel media types. -/
def excelNeedle : Str := "excel".toList

/-- The `.xlsx` media type listed in the dropzone `accept` configuration. -/
def xlsxMime : Str :=
  "application/vnd.openxmlformats-officedocument.spreadsheetml.sheet".toList

/-- The `.xls` media type listed in the dropzone `accept` configuration. -/
def xlsMime : Str := "application/vnd.ms-excel".toList

/-- The media types accepted by the `useDropzone` configuration in
`FileUpload.tsx` (lines 63–72). -/
def acceptTypes : List Str := [pdfMime, csvMime, xlsxMime, xlsMime]

/-- Classification outcome of the per-file dispatch in `onDrop`. -/
inductive FileClass where
  | pdfDoc
  | tabular
  | unsupported
deriving DecidableEq

/-- The media-type dispatch of `FileUpload.onDrop` (lines 26–41):
`application/pdf` takes the PDF path, `text/csv` or any type containing
`"excel"` takes the tabular path, and anything else throws
`Unsupported file type`. -/
def classifyFile (t : Str) : FileClass :=
  if t = pdfMime then .pdfDoc
  else if t = csvMime ∨ hasSubstr t excelNeedle = true then .tabular
  else .unsupported

/-- One per-file normalization of `onDrop`: dispatch on the declared media
type, call the matching upload endpoint (modelled by the `pdfNet` / `csvNet`
oracles, `none` meaning a thrown network or parse error), and wrap the result.
Every `throw` of the source lands in the surrounding `catch`, which returns
the `null` sentinel, modelled by `none`. -/
def processFile (pdfNet : RawFile → Option Str)
    (csvNet : RawFile → Option (List Row × List Str))
    (fid : Str) (f : RawFile) : Option UploadedFile :=
  match classifyFile f.type with
  | .pdfDoc =>
    match pdfNet f with
    | some t =>
      some { id := fid, file := f, name := f.name, size := f.size,
             type := f.type,
             uploadResponse := { text := some t, metadataType := "pdf".toList } }
    | none => none
  | .tabular =>
    match csvNet f with
    | some (d, c) =>
      some { id := fid, file := f, name := f.name, size := f.size,
             type := f.type,
             uploadResponse := { data := some d, columns := some c,
                                 metadataType := "csv".toList } }
    | none => none
  | .unsupported => none

/-- The normalization of the i-th file of a batch, with `genId` supplying the
client-generated random identifier for each slot. -/
def computeUpload (pdfNet : RawFile → Option Str)
    (csvNet : RawFile → Option (List Row × List Str))
    (genId : Nat → Str) (files : List RawFile) (i : Nat) :
    Option UploadedFile :=
  match files[i]? with
  | some f => processFile pdfNet csvNet (genId i) f
  | none => none

/-- The fan-out of `onDrop`: the settled per-file results in input order, as
delivered by `Promise.all`. -/
def processBatch (pdfNet : RawFile → Option Str)
    (csvNet : RawFile → Option (List Row × List Str))
    (genId : Nat → Str) (files : List RawFile) :
    List (Option UploadedFile) :=
  (List.range files.length).map (computeUpload pdfNet csvNet genId files)

/-- `FileUpload.onDrop` (lines 19–61): fan out all per-file normalizations,
await them all, drop the `null` sentinels, and append the survivors to the
existing uploaded-file list. -/
def onDrop (pdfNet : RawFile → Option Str)
    (csvNet : RawFile → Option (List Row × List Str))
    (genId : Nat → Str) (uploadedFiles : List UploadedFile)
    (acceptedFiles : List RawFile) : List UploadedFile :=
  uploadedFiles ++ (processBatch pdfNet csvNet genId acceptedFiles).filterMap id

/-- An event-scheduler model of `Promise.all`: slots start unfilled and each
completion event (an index of `order`) writes its result into its own slot,
so completion order is explicit. -/
def runSchedule {α : Type} (compute : Nat → α) (n : Nat) (order : List Nat) :
    List (Option α) :=
  order.foldl (fun acc i => acc.set i (some (compute i))) (List.replicate n none)

/-- `onDrop` run under an explicit completion order of the per-file network
calls: the slots are filled in completion order, then read off in slot order. -/
def onDropSched (pdfNet : RawFile → Option Str)
    (csvNet : RawFile → Option (List Row × List Str))
    (genId : Nat → Str) (uploadedFiles : List UploadedFile)
    (acceptedFiles : List RawFile) (order : List Nat) : List UploadedFile :=
  uploadedFiles ++
    (((runSchedule (computeUpload pdfNet csvNet genId acceptedFiles)
        acceptedFiles.length order).filterMap id).filterMap id)

/-- `FileUpload.removeFile` (lines 74–76): keep the entries whose id differs
from the removed one. -/
def removeFile (uploadedFiles : List UploadedFile) (fid : Str) :
    List UploadedFile :=
  uploadedFiles.filter (fun f => f.id ≠ fid)

/-- JSON string quoting used by `JSON.stringify`: escape backslashes and
double quotes, then wrap in double quotes. -/
def jsonQuote (s : Str) : Str :=
  '"' :: (s.flatMap (fun c => if c = '"' ∨ c = '\\' then ['\\', c] else [c])) ++ ['"']

/-- `JSON.stringify` of one scalar value. -/
def stringifyJVal : JVal → Str
  | .num n => Nat.toDigits 10 n
  | .str s => jsonQuote s

/-- `JSON.stringify` of one key/value pair of a row object. -/
def stringifyPair (p : Str × JVal) : Str :=
  jsonQuote p.1 ++ ':' :: stringifyJVal p.2

/-- `JSON.stringify` of one row object. -/
def stringifyRow (r : Row) : Str :=
  lbraceChar :: List.intercalate [','] (r.map stringifyPair) ++ [rbraceChar]

/-- `JSON.stringify` of an array of row objects, as produced for the
`content` field of a tabular file-context record. -/
def stringifyRows (rs : List Row) : Str :=
  '[' :: List.intercalate [','] (rs.map stringifyRow) ++ [']']

/-- Parse a JSON string body up to the closing quote, handling escapes;
returns the decoded text and the unconsumed remainder. -/
def jstrBody : Str → Option (Str × Str)
  | [] => none
  | '\\' :: c :: rest => (jstrBody rest).map (fun p => (c :: p.1, p.2))
  | '"' :: rest => some ([], rest)
  | c :: rest => (jstrBody rest).map (fun p => (c :: p.1, p.2))

/-- Parse a quoted JSON string literal. -/
def parseJStr : Str → Option (Str × Str)
  | '"' :: rest => jstrBody rest
  | _ => none

/-- Parse a nonempty run of decimal digits as a JSON number. -/
def parseJNum (s : Str) : Option (Nat × Str) :=
  let ds := s.takeWhile (fun c => c.isDigit)
  if ds = [] then none
  else some (ds.foldl (fun a c => a * 10 + (c.toNat - 48)) 0, s.drop ds.length)

/-- Parse one JSON scalar value (string or number). -/
def parseJVal (s : Str) : Option (JVal × Str) :=
  match parseJStr s with
  | some (t, rest) => some (.str t, rest)
  | none => (parseJNum s).map (fun p => (.num p.1, p.2))

/-- Parse the comma-separated key/value pairs of a row object, stopping just
before the closing brace. -/
def parsePairs (fuel : Nat) (s : Str) : Option (Row × Str) :=
  match fuel with
  | 0 => none
  | fuel + 1 =>
    match parseJStr s with
    | none => none
    | some (k, rest) =>
      match rest with
      | ':' :: rest2 =>
        match parseJVal rest2 with
        | none => none
        | some (v, rest3) =>
          match rest3 with
          | ',' :: rest4 => (parsePairs fuel rest4).map (fun p => ((k, v) :: p.1, p.2))
          | _ => some ([(k, v)], rest3)
      | _ => none

/-- Parse one row object, braces included. -/
def parseRow (fuel : Nat) (s : Str) : Option (Row × Str) :=
  match s with
  | c :: rest =>
    if c = lbraceChar then
      match rest with
      | d :: rest2 =>
        if d = rbraceChar then some ([], rest2)
        else
          match parsePairs fuel rest with
          | some (ps, r) =>
            match r with
            | e :: r2 => if e = rbraceChar then some (ps, r2) else none
            | [] => none
          | none => none
      | [] => none
    else none
  | [] => none

/-- Parse the comma-separated row objects of a nonempty JSON array, consuming
the closing bracket. -/
def parseRowsTail (fuel : Nat) (s : Str) : Option (List Row × Str) :=
  match fuel with
  | 0 => none
  | fuel + 1 =>
    match parseRow (s.length + 1) s with
    | none => none
    | some (row, rest) =>
      match rest with
      | ',' :: rest2 => (parseRowsTail fuel rest2).map (fun p => (row :: p.1, p.2))
      | c :: rest2 => if c = ']' then some ([row], rest2) else none
      | [] => none

/-- Parse a complete JSON array of row objects; the whole input must be
consumed. -/
def parseRows (s : Str) : Option (List Row) :=
  match s with
  | '[' :: rest =>
    match rest with
    | c :: rest2 =>
      if c = ']' then (if rest2 = [] then some [] else none)
      else
        match parseRowsTail (s.length + 1) rest with
        | some (rows, r) => if r = [] then some rows else none
        | none => none
    | [] => none
  | _ => none

/-- The per-request file-context record built in `handleSendMessage`
(lines 48–61 of `ChatInterface`): name, declared type, serialized content and
the metadata produced by the upload (columns plus the upload marker). -/
structure FileContextRecord where
  name : Str
  type : Str
  content : Str
  metadataColumns : List Str
  metadataType : Str
deriving DecidableEq

/-- Build one `FileContextRecord` from an uploaded file, following
`handleSendMessage`: tabular files (CSV media type or a type containing
`"excel"`) serialize their rows with `JSON.stringify`, other files carry the
extracted text; absent fields default to an empty array or empty text. -/
def mkFileContextRecord (f : UploadedFile) : FileContextRecord :=
  { name := f.name
    type := f.type
    content :=
      if f.type = csvMime ∨ hasSubstr f.type excelNeedle = true then
        stringifyRows (f.uploadResponse.data.getD [])
      else f.uploadResponse.text.getD []
    metadataColumns := f.uploadResponse.columns.getD []
    metadataType := f.uploadResponse.metadataType }

/-- The file-context assembly of `handleSendMessage` (lines 47–62): an empty
uploaded-file list yields an empty sequence, otherwise each file is mapped to
its record. -/
def buildFileContext (uploadedFiles : List UploadedFile) :
    List FileContextRecord :=
  if uploadedFiles.length > 0 then uploadedFiles.map mkFileContextRecord
  else []

/-- The outbound multipart request assembled by `chatAPI.sendMessage`
(`api.ts` lines 161–182). -/
structure ChatRequest where
  message : Str
  chat_history : List ChatMessage
  persona : Str
  recipient_email : Option Str
  csv_context : Option (List FileContextRecord)
deriving DecidableEq

/-- `chatAPI.sendMessage` request construction: every field is copied into
the form data; the optional fields are appended only when present. -/
def sendMessageRequest (message : Str) (chatHistory : List ChatMessage)
    (persona : Str) (recipientEmail : Option Str)
    (csvContext : Option (List FileContextRecord)) : ChatRequest :=
  { message := message
    chat_history := chatHistory
    persona := persona
    recipient_email := recipientEmail
    csv_context := csvContext }

/-- The fixed apology text of the failure branch of `handleSendMessage`. -/
def apologyText : Str :=
  "Sorry, I encountered an error. Please try again.".toList

/-- The user message appended before the exchange is initiated. -/
def mkUserMessage (content : Str) (now : Nat) : ChatMessage :=
  { role := .user, content := content, timestamp := now }

/-- The assistant message built from a successful backend response:
the chart fields are read from the optional `tool_result` payload. -/
def mkAssistantMessage (response : ChatResponse) (now : Nat) : ChatMessage :=
  { role := .assistant
    content := response.message
    timestamp := now
    chartData := response.tool_result.bind (fun t => t.chart_data)
    toolType := response.tool_type
    statistics := response.tool_result.bind (fun t => t.data_summary)
    chartMetadata := response.tool_result.bind (fun t => t.chart_metadata) }

/-- The fallback assistant message of the `catch` branch. -/
def mkErrorMessage (now : Nat) : ChatMessage :=
  { role := .assistant, content := apologyText, timestamp := now }

/-- `ChatInterface.handleSendMessage` (lines 33–94).  Blank input returns
early.  Otherwise the user message is appended, the file context is built,
one request is issued (the history snapshot is the list from before the
append), and the response — or the caught failure — is merged as exactly one
assistant message.  The second component logs the requests issued to the
backend, and `backend` is the network oracle (`none` models a rejected
call). -/
def handleSendMessage (backend : ChatRequest → Option ChatResponse)
    (selectedPersona : Str) (uploadedFiles : List UploadedFile)
    (messages : List ChatMessage) (message : Str) (now : Nat) :
    List ChatMessage × List ChatRequest :=
  if jsTrim message = [] then (messages, [])
  else
    let userMessage := mkUserMessage message now
    let fileContext := buildFileContext uploadedFiles
    let req := sendMessageRequest message messages selectedPersona none
      (some fileContext)
    match backend req with
    | some response =>
      (messages ++ [userMessage] ++ [mkAssistantMessage response now], [req])
    | none =>
      (messages ++ [userMessage] ++ [mkErrorMessage now], [req])

/-- Number of assistant-role messages in a transcript. -/
def assistantCount (l : List ChatMessage) : Nat :=
  l.countP (fun m => m.role = Role.assistant)

/-- A `\w` word character of the JavaScript regular-expression dialect. -/
def wordChar (c : Char) : Bool := c.isAlphanum || c = '_'

/-- Model of `chartData.replace(/^data:image\/\w+;base64,/, "")` in the
download handler of `ChartDisplay` (line 171): strip a leading data-URL
encoding header when present. -/
def stripDataUrl (s : Str) : Str :=
  let lit1 := "data:image/".toList
  if List.isPrefixOf lit1 s then
    let rest := s.drop lit1.length
    let w := rest.takeWhile wordChar
    let rest2 := rest.drop w.length
    let lit2 := ";base64,".toList
    if w ≠ [] ∧ List.isPrefixOf lit2 rest2 then rest2.drop lit2.length
    else s
  else s

/-- Model of `toolType.replace(/_/g, '-')` (line 173): every underscore
becomes a hyphen. -/
def replaceUnderscores (s : Str) : Str :=
  s.map (fun c => if c = '_' then '-' else c)

/-- The download handler of `ChartDisplay` (lines 170–174): the saved blob
content is the stripped base64 payload and the filename is the underscored
tool type with the fixed suffix. -/
def downloadChart (chartData toolType : Str) : Str × Str :=
  (stripDataUrl chartData, replaceUnderscores toolType ++ "-chart.png".toList)

/-- Follows the spec words for the export filename, for comparison with the
source's `downloadChart`: every maximal run of non-alphanumeric separator
characters is normalized to a single hyphen delimiter before the fixed
suffix is appended. -/
def normalizeSepsAux : Bool → Str → Str
  | _, [] => []
  | prevSep, c :: rest =>
    if c.isAlphanum then c :: normalizeSepsAux false rest
    else if prevSep then normalizeSepsAux true rest
    else '-' :: normalizeSepsAux true rest

/-- The spec's reading of the export filename derivation (see
`normalizeSepsAux`); compared against the code's `downloadChart`. -/
def specChartFileName (toolType : Str) : Str :=
  normalizeSepsAux false toolType ++ "-chart.png".toList

/-- A file whose media type is classified unsupported is normalized to the
`null` sentinel whatever the network oracles answer. -/
theorem processFile_unsupported (pdfNet : RawFile → Option Str)
    (csvNet : RawFile → Option (List Row × List Str)) (fid : Str)
    (f : RawFile) (h : classifyFile f.type = FileClass.unsupported) :
    processFile pdfNet csvNet fid f = none := by
  unfold processFile
  rw [h]

/-- C5: sending a blank (whitespace-only or empty) message leaves the
conversation store unchanged and issues no request. -/
theorem blank_input_noop (backend : ChatRequest → Option ChatResponse)
    (selectedPersona : Str) (uploadedFiles : List UploadedFile)
    (messages : List ChatMessage) (message : Str) (now : Nat)
    (h : jsTrim message = []) :
    handleSendMessage backend selectedPersona uploadedFiles messages message now
      = (messages, []) := by
  rw [handleSendMessage, if_pos h]

/-- Witness for `blank_input_noop` at the whitespace-only input `"  "`. -/
theorem blank_input_noop_instance :
    jsTrim "  ".toList = []
    ∧ handleSendMessage (fun _ => none) "Novice Guide".toList [] [] "  ".toList 7
        = ([], []) :=
  ⟨by decide,
   blank_input_noop (fun _ => none) "Novice Guide".toList [] [] "  ".toList 7
     (by decide)⟩

/-- C1: a non-blank send appends exactly one assistant message, whether the
backend call succeeds or fails. -/
theorem exchange_appends_one_assistant
    (backend : ChatRequest → Option ChatResponse)
    (selectedPersona : Str) (uploadedFiles : List UploadedFile)
    (messages : List ChatMessage) (message : Str) (now : Nat)
    (h : jsTrim message ≠ []) :
    assistantCount
        (handleSendMessage backend selectedPersona uploadedFiles messages
          message now).1
      = assistantCount messages + 1 := by
  rw [handleSendMessage, if_neg h]
  rcases hb : backend (sendMessageRequest message messages selectedPersona none
      (some (buildFileContext uploadedFiles))) with _ | r <;>
    simp [hb, assistantCount, mkUserMessage, mkAssistantMessage, mkErrorMessage,
      List.countP_append, List.countP_cons]

/-- Witness for `exchange_appends_one_assistant` with a failing backend. -/
theorem exchange_appends_one_assistant_instance :
    jsTrim "hi".toList ≠ []
    ∧ assistantCount
        (handleSendMessage (fun _ => none) "Novice Guide".toList [] []
          "hi".toList 0).1 = assistantCount [] + 1 :=
  ⟨by decide,
   exchange_appends_one_assistant (fun _ => none) "Novice Guide".toList [] []
     "hi".toList 0 (by decide)⟩

/-- C6: when the backend call fails, the one appended assistant message
carries the fixed apology text and no chart fields. -/
theorem failure_fallback_message (backend : ChatRequest → Option ChatResponse)
    (selectedPersona : Str) (uploadedFiles : List UploadedFile)
    (messages : List ChatMessage) (message : Str) (now : Nat)
    (h : jsTrim message ≠ []) (hb : ∀ r, backend r = none) :
    (handleSendMessage backend selectedPersona uploadedFiles messages message
        now).1
      = messages ++ [mkUserMessage message now, mkErrorMessage now]
    ∧ (mkErrorMessage now).content = apologyText
    ∧ (mkErrorMessage now).chartData = none
    ∧ (mkErrorMessage now).toolType = none
    ∧ (mkErrorMessage now).statistics = none
    ∧ (mkErrorMessage now).chartMetadata = none := by
  refine ⟨?_, rfl, rfl, rfl, rfl, rfl⟩
  rw [handleSendMessage, if_neg h]
  simp [hb]

/-- Witness for `failure_fallback_message` with an always-failing backend. -/
theorem failure_fallback_message_instance :
    jsTrim "draw a chart".toList ≠ []
    ∧ (handleSendMessage (fun _ => none) "Novice Guide".toList [] []
        "draw a chart".toList 3).1
      = [mkUserMessage "draw a chart".toList 3, mkErrorMessage 3] :=
  ⟨by decide, by
    have h := failure_fallback_message (fun _ => none) "Novice Guide".toList []
      [] "draw a chart".toList 3 (by decide) (fun _ => rfl)
    simpa using h.1⟩

/-- C7: a non-blank send issues exactly one request, whose transmitted
history is the store contents from before the pending user message was
appended, with the new message carried separately. -/
theorem request_history_snapshot (backend : ChatRequest → Option ChatResponse)
    (selectedPersona : Str) (uploadedFiles : List UploadedFile)
    (messages : List ChatMessage) (message : Str) (now : Nat)
    (h : jsTrim message ≠ []) :
    (handleSendMessage backend selectedPersona uploadedFiles messages message
        now).2
      = [sendMessageRequest message messages selectedPersona none
          (some (buildFileContext uploadedFiles))]
    ∧ ∀ req ∈ (handleSendMessage backend selectedPersona uploadedFiles messages
        message now).2,
        req.chat_history = messages ∧ req.message = message := by
  have e : (handleSendMessage backend selectedPersona uploadedFiles messages
      message now).2
      = [sendMessageRequest message messages selectedPersona none
          (some (buildFileContext uploadedFiles))] := by
    rw [handleSendMessage, if_neg h]
    rcases hb : backend (sendMessageRequest message messages selectedPersona
        none (some (buildFileContext uploadedFiles))) with _ | r <;> simp [hb]
  refine ⟨e, ?_⟩
  intro req hreq
  rw [e, List.mem_singleton] at hreq
  subst hreq
  exact ⟨rfl, rfl⟩

/-- Witness for `request_history_snapshot` on a one-message history. -/
theorem request_history_snapshot_instance :
    jsTrim "next".toList ≠ []
    ∧ ∀ req ∈ (handleSendMessage (fun _ => none) "Novice Guide".toList []
        [mkUserMessage "first".toList 1] "next".toList 2).2,
        req.chat_history = [mkUserMessage "first".toList 1] :=
  ⟨by decide, fun req hreq =>
    ((request_history_snapshot (fun _ => none) "Novice Guide".toList []
        [mkUserMessage "first".toList 1] "next".toList 2 (by decide)).2 req
      hreq).1⟩

/-- C10: removing an id keeps exactly the entries with a different id, in
their original relative order, and is the identity when the id is absent. -/
theorem removeFile_frame (files : List UploadedFile) (fid : Str) :
    removeFile files fid = files.filter (fun f => f.id ≠ fid)
    ∧ (∀ f ∈ removeFile files fid, f.id ≠ fid)
    ∧ (removeFile files fid).Sublist files
    ∧ (∀ f ∈ files, f.id ≠ fid → f ∈ removeFile files fid)
    ∧ ((∀ f ∈ files, f.id ≠ fid) → removeFile files fid = files) := by
  refine ⟨rfl, ?_, List.filter_sublist files, ?_, ?_⟩
  · intro f hf
    exact of_decide_eq_true (List.mem_filter.mp hf).2
  · intro f hf hne
    exact List.mem_filter.mpr ⟨hf, decide_eq_true hne⟩
  · intro hall
    exact List.filter_eq_self.mpr (fun f hf => decide_eq_true (hall f hf))

/-- A PDF-path uploaded file used as concrete witness data. -/
def demoRaw : RawFile :=
  { name := "a.pdf".toList, size := 3, type := pdfMime }

/-- A concrete uploaded-file entry with id `"aaa"`. -/
def demoFileA : UploadedFile :=
  { id := "aaa".toList, file := demoRaw, name := demoRaw.name, size := 3,
    type := pdfMime,
    uploadResponse := { text := some "T".toList, metadataType := "pdf".toList } }

/-- A concrete uploaded-file entry with id `"bbb"`. -/
def demoFileB : UploadedFile :=
  { id := "bbb".toList, file := demoRaw, name := demoRaw.name, size := 3,
    type := pdfMime,
    uploadResponse := { text := some "U".toList, metadataType := "pdf".toList } }

/-- Witness for `removeFile_frame`: removing a present id and an absent id. -/
theorem removeFile_frame_instance :
    removeFile [demoFileA, demoFileB] ("aaa".toList) = [demoFileB]
    ∧ removeFile [demoFileA, demoFileB] ("zzz".toList)
        = [demoFileA, demoFileB] := by
  constructor
  · rw [(removeFile_frame [demoFileA, demoFileB] ("aaa".toList)).1]
    decide
  · exact (removeFile_frame [demoFileA, demoFileB] ("zzz".toList)).2.2.2.2
      (by decide)

/-- C2: in a batch of one unsupported and two supported files, the
unsupported file resolves to the `null` sentinel and is dropped while the
two supported entries survive; the batch as a whole returns normally. -/
theorem batch_partial_failure (pdfNet : RawFile → Option Str)
    (csvNet : RawFile → Option (List Row × List Str)) (genId : Nat → Str)
    (old : List UploadedFile) (f1 f2 f3 : RawFile) (u2 u3 : UploadedFile)
    (h1 : classifyFile f1.type = FileClass.unsupported)
    (h2 : processFile pdfNet csvNet (genId 1) f2 = some u2)
    (h3 : processFile pdfNet csvNet (genId 2) f3 = some u3) :
    onDrop pdfNet csvNet genId old [f1, f2, f3] = old ++ [u2, u3] := by
  have hr : List.range 3 = [0, 1, 2] := rfl
  simp [onDrop, processBatch, hr, computeUpload, h2, h3,
    processFile_unsupported pdfNet csvNet (genId 0) f1 h1]

/-- An unsupported raw file (plain-text media type). -/
def demoTxt : RawFile :=
  { name := "notes.txt".toList, size := 1, type := "text/plain".toList }

/-- A supported PDF raw file. -/
def demoPdf : RawFile :=
  { name := "spec.pdf".toList, size := 2, type := pdfMime }

/-- A supported CSV raw file. -/
def demoCsvRaw : RawFile :=
  { name := "data.csv".toList, size := 3, type := csvMime }

/-- A PDF upload oracle that always succeeds. -/
def demoPdfNet : RawFile → Option Str := fun _ => some "extracted text".toList

/-- A CSV upload oracle that always succeeds with one row and one column. -/
def demoCsvNet : RawFile → Option (List Row × List Str) :=
  fun _ => some ([[("a".toList, JVal.num 1)]], ["a".toList])

/-- A deterministic id supply standing in for `Math.random`. -/
def demoGenId : Nat → Str := fun i => Nat.toDigits 10 i

/-- The uploaded entry produced for `demoPdf` at batch slot 1. -/
def demoU2 : UploadedFile :=
  { id := "1".toList, file := demoPdf, name := demoPdf.name,
    size := demoPdf.size, type := demoPdf.type,
    uploadResponse := { text := some "extracted text".toList,
                        metadataType := "pdf".toList } }

/-- The uploaded entry produced for `demoCsvRaw` at batch slot 2. -/
def demoU3 : UploadedFile :=
  { id := "2".toList, file := demoCsvRaw, name := demoCsvRaw.name,
    size := demoCsvRaw.size, type := demoCsvRaw.type,
    uploadResponse := { data := some [[("a".toList, JVal.num 1)]],
                        columns := some ["a".toList],
                        metadataType := "csv".toList } }

/-- Witness for `batch_partial_failure` on a concrete three-file batch. -/
theorem batch_partial_failure_instance :
    classifyFile demoTxt.type = FileClass.unsupported
    ∧ onDrop demoPdfNet demoCsvNet demoGenId [] [demoTxt, demoPdf, demoCsvRaw]
        = [demoU2, demoU3] :=
  ⟨by decide, by
    have h := batch_partial_failure demoPdfNet demoCsvNet demoGenId []
      demoTxt demoPdf demoCsvRaw demoU2 demoU3 (by decide) (by decide)
      (by decide)
    simpa using h⟩

/-- Each completion event writes only its own slot, so after a fold over any
completion order a slot holds its own result exactly when its index occurred
in the order. -/
theorem foldl_set_getElem? {α : Type} (compute : Nat → α) (order : List Nat)
    (acc : List (Option α)) (j : Nat) :
    (order.foldl (fun a i => a.set i (some (compute i))) acc)[j]?
      = if j ∈ order ∧ j < acc.length then some (some (compute j))
        else acc[j]? := by
  induction order generalizing acc with
  | nil => simp
  | cons i rest ih =>
    rw [List.foldl_cons, ih, List.length_set, List.getElem?_set]
    by_cases hj : j < acc.length
    · by_cases hir : j ∈ rest
      · simp [hir, hj, List.mem_cons]
      · by_cases hij : i = j
        · subst hij
          simp [hir, hj, List.mem_cons]
        · simp [hir, hj, hij, List.mem_cons, Ne.symm hij]
    · have hacc : acc[j]? = none :=
        List.getElem?_eq_none (le_of_not_lt hj)
      by_cases hij : i = j
      · subst hij
        simp [hj, hacc]
      · simp [hj, hij, hacc]

/-- Filling the slots under any completion order that is a permutation of
the indices produces every result in slot (input) order. -/
theorem runSchedule_perm {α : Type} (compute : Nat → α) (n : Nat)
    (order : List Nat) (h : order.Perm (List.range n)) :
    runSchedule compute n order
      = (List.range n).map (fun i => some (compute i)) := by
  apply List.ext_getElem?
  intro j
  rw [runSchedule, foldl_set_getElem?]
  have hmem : j ∈ order ↔ j < n := by rw [h.mem_iff, List.mem_range]
  by_cases hj : j < n
  · rw [if_pos ⟨hmem.mpr hj, by simpa using hj⟩, List.getElem?_map,
      List.getElem?_range hj]
    rfl
  · rw [if_neg (by simp [hj])]
    rw [List.getElem?_replicate, if_neg hj]
    symm
    apply List.getElem?_eq_none
    simpa using le_of_not_lt hj

/-- Filtering out the (absent) failures of an all-successful option list is
the underlying map. -/
theorem filterMap_some_eq_map {α β : Type} (f : α → β) (l : List α) :
    l.filterMap (fun a => some (f a)) = l.map f := by
  induction l with
  | nil => rfl
  | cons a l ih => simp [List.filterMap_cons, ih]

/-- C3: whatever order the concurrent per-file calls complete in (any
permutation of the batch indices), the batch result equals the existing list
followed by the successful entries in original input order. -/
theorem upload_order_preserved (pdfNet : RawFile → Option Str)
    (csvNet : RawFile → Option (List Row × List Str)) (genId : Nat → Str)
    (old : List UploadedFile) (files : List RawFile) (order : List Nat)
    (h : order.Perm (List.range files.length)) :
    onDropSched pdfNet csvNet genId old files order
      = old ++ (processBatch pdfNet csvNet genId files).filterMap id
    ∧ onDropSched pdfNet csvNet genId old files order
      = onDrop pdfNet csvNet genId old files := by
  have key : ((runSchedule (computeUpload pdfNet csvNet genId files)
      files.length order).filterMap id)
      = processBatch pdfNet csvNet genId files := by
    rw [runSchedule_perm _ _ _ h, processBatch]
    simp only [List.filterMap_map, Function.comp, id]
    exact filterMap_some_eq_map _ _
  exact ⟨by rw [onDropSched, key], by rw [onDropSched, key]; rfl⟩

/-- Witness for `upload_order_preserved`: the last file's network call
finishes first, yet the result order matches the input order. -/
theorem upload_order_preserved_instance :
    ([2, 0, 1].Perm (List.range 3))
    ∧ onDropSched demoPdfNet demoCsvNet demoGenId []
        [demoTxt, demoPdf, demoCsvRaw] [2, 0, 1]
      = onDrop demoPdfNet demoCsvNet demoGenId []
        [demoTxt, demoPdf, demoCsvRaw] :=
  ⟨by decide,
   (upload_order_preserved demoPdfNet demoCsvNet demoGenId []
     [demoTxt, demoPdf, demoCsvRaw] [2, 0, 1] (by decide)).2⟩

/-- C4: the `.xlsx` media type is declared acceptable by the dropzone
configuration, yet the classifier sends it to the unsupported path (its type
contains no `"excel"` substring), so a successfully accepted `.xlsx` file is
silently dropped; `.xls`, CSV and PDF are classified as the claim states. -/
theorem xlsx_accepted_but_unsupported :
    xlsxMime ∈ acceptTypes
    ∧ classifyFile xlsxMime = FileClass.unsupported
    ∧ classifyFile xlsMime = FileClass.tabular
    ∧ classifyFile pdfMime = FileClass.pdfDoc
    ∧ classifyFile csvMime = FileClass.tabular
    ∧ processFile demoPdfNet demoCsvNet []
        { name := "report.xlsx".toList, size := 4, type := xlsxMime }
      = none := by
  decide

/-- The CSV uploaded file of the round-trip claim: rows `[(a 1, b 2)]` and
columns `[a, b]`. -/
def demoCsvUpload : UploadedFile :=
  { id := "f1".toList, file := demoCsvRaw, name := "data.csv".toList,
    size := 3, type := csvMime,
    uploadResponse :=
      { data := some [[("a".toList, JVal.num 1), ("b".toList, JVal.num 2)]],
        columns := some ["a".toList, "b".toList],
        metadataType := "csv".toList } }

/-- C8: the file-context record of the CSV file with rows `[(a 1, b 2)]` and
columns `[a, b]` has a content string that parses back to the same rows, the
record carries the same columns, and the parsed rows' keys are the columns. -/
theorem csv_context_roundtrip :
    buildFileContext [demoCsvUpload] = [mkFileContextRecord demoCsvUpload]
    ∧ parseRows (mkFileContextRecord demoCsvUpload).content
        = some [[("a".toList, JVal.num 1), ("b".toList, JVal.num 2)]]
    ∧ (mkFileContextRecord demoCsvUpload).metadataColumns
        = ["a".toList, "b".toList]
    ∧ ((parseRows (mkFileContextRecord demoCsvUpload).content).getD []).map
        (fun r => r.map Prod.fst)
      = [["a".toList, "b".toList]] := by
  decide

/-- C9 counterexample: for the tool type `"a b"` the code's filename keeps
the space, while a name derived by normalizing non-alphanumeric separators
to a hyphen delimiter would not. -/
theorem export_filename_spec_mismatch :
    (downloadChart [] ("a b".toList)).2 ≠ specChartFileName ("a b".toList) := by
  decide

/-- C9 (amended): the export filename is the tool type with every underscore
replaced by a hyphen plus the fixed `-chart.png` suffix, and the export
strips a data-URL encoding header from the chart data; in particular
`pareto_chart` yields `pareto-chart-chart.png`. -/
theorem export_filename_underscores :
    (∀ chartData toolType : Str,
      downloadChart chartData toolType
        = (stripDataUrl chartData,
           replaceUnderscores toolType ++ "-chart.png".toList))
    ∧ downloadChart ("data:image/png;base64,iVBOR".toList)
        ("pareto_chart".toList)
      = ("iVBOR".toList, "pareto-chart-chart.png".toList) :=
  ⟨fun _ _ => rfl, by decide⟩
